import Mathlib

/-!
Shallow embedding of the `mutiny-node` sources:
`src/mutiny-core/src/peermanager.rs` (the `GossipMessageHandler` and its
`RoutingMessageHandler` / `MessageSendEventsProvider` implementations and the
`ErroringUtxoLookup` type) and `src/node-manager/src/nodemanager.rs`
(the `NodeManager` constructor and `show_seed`).

External collaborators (the LDK network graph, the metadata store, the bip39
codec) are modelled at their interface boundary: their observable outcomes are
inputs to the embedded functions, and the calls the handler makes into the
topology cache are returned as an explicit trace.
-/

namespace Mutiny

/-- Peer / node identity: a public key, modelled as a natural number. -/
abbrev NodeId := Nat

abbrev PublicKey := Nat

abbrev BlockHash := Nat

/-- Contents of a `msgs::NodeAnnouncement`: announced identity, 32-byte alias
and 3-byte rgb color (addresses are irrelevant to the embedded code paths). -/
structure UnsignedNodeAnnouncement where
  node_id : NodeId
  node_alias : List Nat
  rgb : Nat × Nat × Nat
  deriving DecidableEq, Repr

structure NodeAnnouncement where
  signature : Nat
  contents : UnsignedNodeAnnouncement
  deriving DecidableEq, Repr

structure UnsignedChannelAnnouncement where
  short_channel_id : Nat
  node_id_1 : NodeId
  node_id_2 : NodeId
  deriving DecidableEq, Repr

structure ChannelAnnouncement where
  signature : Nat
  contents : UnsignedChannelAnnouncement
  deriving DecidableEq, Repr

structure UnsignedChannelUpdate where
  short_channel_id : Nat
  timestamp : Nat
  deriving DecidableEq, Repr

structure ChannelUpdate where
  signature : Nat
  contents : UnsignedChannelUpdate
  deriving DecidableEq, Repr

/-- `lightning::ln::msgs::LightningError`, carrying an error description. -/
structure LightningError where
  err : String
  deriving DecidableEq, Repr

/-- Failure of the metadata persistence capability (`MutinyError` at the
storage boundary). -/
inductive StoreError where
  | storeFailed
  deriving DecidableEq, Repr

/-- Modelled from the spec: the Peer Metadata Record
`(node_id, alias, rgb_color)` persisted by the `crate::gossip` storage helpers,
which are not under `src/`. -/
structure LnPeerInfo where
  node_id : NodeId
  node_alias : List Nat
  rgb : Nat × Nat × Nat
  deriving DecidableEq, Repr

/-- The metadata store contents: at most one record per peer identity. -/
abbrev StoreMap := NodeId → Option LnPeerInfo

/-- Modelled from the spec: the `From<NodeAnnouncement> for LnPeerInfo`
conversion used by `msg.clone().into()` — the record takes the announcement's
identity, alias and color (spec: "updates alias/color to the new values"). -/
def lnPeerInfoOfAnnouncement (msg : NodeAnnouncement) : LnPeerInfo :=
  ⟨msg.contents.node_id, msg.contents.node_alias, msg.contents.rgb⟩

/-- Modelled from the spec: `crate::gossip::read_peer_info` (not under `src/`),
the persistence boundary's `read(identity) -> Option<PeerMetadataRecord>`:
a successful read returns the stored record or absence; the read itself may
fail (`readOk = false`), which the caller observes as an `Err`. -/
def read_peer_info (readOk : Bool) (store : StoreMap) (node_id : NodeId) :
    Except StoreError (Option LnPeerInfo) :=
  if readOk then Except.ok (store node_id) else Except.error StoreError.storeFailed

/-- Modelled from the spec: `crate::gossip::save_ln_peer_info` (not under
`src/`), the persistence boundary's `write(identity, record)`: on success the
store holds the new record under the identity key; writes may fail. -/
def save_ln_peer_info (writeOk : Bool) (store : StoreMap) (node_id : NodeId)
    (info : LnPeerInfo) : Except StoreError StoreMap :=
  if writeOk then
    Except.ok (fun k => if k = node_id then some info else store k)
  else Except.error StoreError.storeFailed

inductive UtxoLookupError where
  | UnknownChain
  | UnknownTx
  deriving DecidableEq, Repr

/-- `lightning::routing::utxo::UtxoResult`; the `Sync` arm carries the
synchronous lookup result (a `TxOut`, opaque here), `Async` a pending future. -/
inductive UtxoResult where
  | Sync (res : Except UtxoLookupError Nat)
  | Async

/-- The UTXO-verification capability type passed to the network graph's
channel-announcement update. -/
abbrev UtxoLookupFn := BlockHash → Nat → UtxoResult

/-- `ErroringUtxoLookup::get_utxo`: always a synchronous `UnknownTx` error. -/
def ErroringUtxoLookup.get_utxo (_genesis_hash : BlockHash)
    (_short_channel_id : Nat) : UtxoResult :=
  UtxoResult.Sync (Except.error UtxoLookupError.UnknownTx)

/-- One call made into the Topology Cache (the LDK `NetworkGraph`); for a
channel announcement the UTXO-lookup argument passed along is recorded. -/
inductive CacheCall where
  | updateNode (msg : NodeAnnouncement)
  | updateChanAnn (msg : ChannelAnnouncement) (utxo_lookup : Option UtxoLookupFn)
  | updateChan (msg : ChannelUpdate)

/-- Behaviour of the external collaborators during one handler invocation:
whether the metadata read and write succeed, and the validation verdict the
Topology Cache returns for each kind of update. -/
structure GossipEnv where
  readOk : Bool
  writeOk : Bool
  nodeUpdateResult : Except LightningError Unit
  chanAnnUpdateResult : Except LightningError Unit
  chanUpdateResult : Except LightningError Unit

/-- Result type of the three announcement handlers:
`Result<bool, LightningError>`. -/
abbrev HandlerResult := Except LightningError Bool

/-- `GossipMessageHandler::handle_node_announcement`. Looks up the metadata
record for the announced identity (`read_peer_info(..).ok().flatten()
.is_some()`); if one exists, saves the announcement-derived record, logging and
continuing on a failed write; then unconditionally calls the network graph's
`update_node_from_announcement` with `?` (propagating its error) and returns
`Ok(false)`. Output: the handler's return value, the resulting store, and the
trace of Topology Cache calls. -/
def handle_node_announcement (env : GossipEnv) (store : StoreMap)
    (msg : NodeAnnouncement) : HandlerResult × StoreMap × List CacheCall :=
  let node_id := msg.contents.node_id
  let store' :=
    if ((read_peer_info env.readOk store node_id).toOption.join).isSome then
      match save_ln_peer_info env.writeOk store node_id (lnPeerInfoOfAnnouncement msg) with
      | Except.ok s => s
      | Except.error _ => store
    else store
  ((match env.nodeUpdateResult with
    | Except.error e => Except.error e
    | Except.ok _ => Except.ok false),
   store', [CacheCall.updateNode msg])

/-- `GossipMessageHandler::handle_channel_announcement`: forwards the
announcement into `update_channel_from_announcement::<Arc<ErroringUtxoLookup>>`
passing `&None` as the UTXO lookup, propagates its error with `?`, returns
`Ok(false)`. -/
def handle_channel_announcement (env : GossipEnv) (store : StoreMap)
    (msg : ChannelAnnouncement) : HandlerResult × StoreMap × List CacheCall :=
  ((match env.chanAnnUpdateResult with
    | Except.error e => Except.error e
    | Except.ok _ => Except.ok false),
   store, [CacheCall.updateChanAnn msg none])

/-- `GossipMessageHandler::handle_channel_update`: forwards the update into
`update_channel`, propagates its error with `?`, returns `Ok(false)`. -/
def handle_channel_update (env : GossipEnv) (store : StoreMap)
    (msg : ChannelUpdate) : HandlerResult × StoreMap × List CacheCall :=
  ((match env.chanUpdateResult with
    | Except.error e => Except.error e
    | Except.ok _ => Except.ok false),
   store, [CacheCall.updateChan msg])

/-- `GossipMessageHandler::get_next_channel_announcement`: always `None`. -/
def get_next_channel_announcement (_env : GossipEnv) (_store : StoreMap)
    (_starting_point : Nat) :
    Option (ChannelAnnouncement × Option ChannelUpdate × Option ChannelUpdate) :=
  none

/-- `GossipMessageHandler::get_next_node_announcement`: always `None`. -/
def get_next_node_announcement (_env : GossipEnv) (_store : StoreMap)
    (_starting_point : Option NodeId) : Option NodeAnnouncement :=
  none

structure NodeFeatures where
  flags : List Nat
  deriving DecidableEq, Repr

def NodeFeatures.empty : NodeFeatures := ⟨[]⟩

structure InitFeatures where
  flags : List Nat
  deriving DecidableEq, Repr

def InitFeatures.empty : InitFeatures := ⟨[]⟩

/-- `msgs::Init`, as far as the embedded code observes it. -/
structure InitMsg where
  features : InitFeatures
  deriving DecidableEq, Repr

/-- `GossipMessageHandler::peer_connected`: always `Ok(())`. -/
def peer_connected (_env : GossipEnv) (_store : StoreMap)
    (_their_node_id : PublicKey) (_init : InitMsg) (_inbound : Bool) :
    Except Unit Unit :=
  Except.ok ()

structure ReplyChannelRange where
  chain_hash : BlockHash
  first_blocknum : Nat
  number_of_blocks : Nat
  sync_complete : Bool
  short_channel_ids : List Nat
  deriving DecidableEq, Repr

structure ReplyShortChannelIdsEnd where
  chain_hash : BlockHash
  full_information : Bool
  deriving DecidableEq, Repr

structure QueryChannelRange where
  chain_hash : BlockHash
  first_blocknum : Nat
  number_of_blocks : Nat
  deriving DecidableEq, Repr

structure QueryShortChannelIds where
  chain_hash : BlockHash
  short_channel_ids : List Nat
  deriving DecidableEq, Repr

/-- `GossipMessageHandler::handle_reply_channel_range`: always `Ok(())`. -/
def handle_reply_channel_range (_env : GossipEnv) (_store : StoreMap)
    (_their_node_id : PublicKey) (_msg : ReplyChannelRange) :
    Except LightningError Unit :=
  Except.ok ()

/-- `GossipMessageHandler::handle_reply_short_channel_ids_end`: always `Ok(())`. -/
def handle_reply_short_channel_ids_end (_env : GossipEnv) (_store : StoreMap)
    (_their_node_id : PublicKey) (_msg : ReplyShortChannelIdsEnd) :
    Except LightningError Unit :=
  Except.ok ()

/-- `GossipMessageHandler::handle_query_channel_range`: always `Ok(())`. -/
def handle_query_channel_range (_env : GossipEnv) (_store : StoreMap)
    (_their_node_id : PublicKey) (_msg : QueryChannelRange) :
    Except LightningError Unit :=
  Except.ok ()

/-- `GossipMessageHandler::handle_query_short_channel_ids`: always `Ok(())`. -/
def handle_query_short_channel_ids (_env : GossipEnv) (_store : StoreMap)
    (_their_node_id : PublicKey) (_msg : QueryShortChannelIds) :
    Except LightningError Unit :=
  Except.ok ()

/-- `GossipMessageHandler::processing_queue_high`: always `false`. -/
def processing_queue_high (_env : GossipEnv) (_store : StoreMap) : Bool :=
  false

/-- `GossipMessageHandler::provided_node_features`: `NodeFeatures::empty()`. -/
def provided_node_features (_env : GossipEnv) (_store : StoreMap) : NodeFeatures :=
  NodeFeatures.empty

/-- `GossipMessageHandler::provided_init_features`: `InitFeatures::empty()`. -/
def provided_init_features (_env : GossipEnv) (_store : StoreMap)
    (_their_node_id : PublicKey) : InitFeatures :=
  InitFeatures.empty

/-- `lightning::events::MessageSendEvent`, opaque to the embedded code. -/
inductive MessageSendEvent where
  | event (tag : Nat)
  deriving DecidableEq, Repr

/-- `MessageSendEventsProvider::get_and_clear_pending_msg_events` for
`GossipMessageHandler`: always the empty vector. -/
def get_and_clear_pending_msg_events (_env : GossipEnv) (_store : StoreMap) :
    List MessageSendEvent :=
  []

/-- `node-manager`'s `NodeManager` struct: a mnemonic (the bip39 `Mnemonic`
type is external, so the carrier `M` is abstract), the websocket write half
(opaque) and the test counter. -/
structure NodeManager (M : Type) where
  mnemonic : M
  ws_write : Unit
  counter : Nat

/-- Modelled from the spec: `crate::storage::insert_mnemonic` (not under
`src/`) persists the given mnemonic and returns it; the repository's
`correctly_show_seed` test requires the mnemonic held by the manager to
stringify back to the inserted seed. Takes and returns the stored-mnemonic
state. -/
def insert_mnemonic (M : Type) (_stored : Option M) (seed : M) : M × Option M :=
  (seed, some seed)

/-- `NodeManager::new`. `parse` embeds `bip39::Mnemonic::from_str` (external
crate); `stored` is what `crate::storage::get_mnemonic` would return; `gen` is
the seed `seedgen::generate_seed` would produce. A `None` result models the
panic of `.expect("could not parse specified mnemonic")` on an unparseable
input; the `WebSocket::open(..).unwrap()` call is modelled as succeeding. -/
def NodeManager.new (M : Type) (parse : String → Option M) (stored : Option M)
    (gen : M) (mnemonic : Option String) : Option (NodeManager M) :=
  match mnemonic with
  | some m =>
    match parse m with
    | none => none
    | some seed => some ⟨(insert_mnemonic M stored seed).1, (), 0⟩
  | none =>
    match stored with
    | some m => some ⟨m, (), 0⟩
    | none => some ⟨(insert_mnemonic M stored gen).1, (), 0⟩

/-- `NodeManager::show_seed`: `self.mnemonic.to_string()`, with `toStr`
embedding the external bip39 `Mnemonic::to_string` (the canonical string form). -/
def NodeManager.show_seed (M : Type) (toStr : M → String) (nm : NodeManager M) :
    String :=
  toStr nm.mnemonic

/-! Concrete sample inputs used to exercise the theorems below. -/

def sampleEnv : GossipEnv :=
  ⟨true, true, Except.ok (), Except.ok (), Except.ok ()⟩

def errEnv : GossipEnv :=
  ⟨true, true, Except.error ⟨"invalid announcement"⟩,
   Except.error ⟨"invalid announcement"⟩, Except.error ⟨"invalid announcement"⟩⟩

def envReadFail : GossipEnv :=
  ⟨false, true, Except.ok (), Except.ok (), Except.ok ()⟩

def sampleOldInfo : LnPeerInfo := ⟨5, [7], (0, 0, 0)⟩

def sampleStore : StoreMap := fun k => if k = 5 then some sampleOldInfo else none

def sampleStoreEmpty : StoreMap := fun _ => none

def sampleAnn : NodeAnnouncement := ⟨0, ⟨5, [9, 9], (1, 2, 3)⟩⟩

def sampleAnnUnknown : NodeAnnouncement := ⟨0, ⟨6, [4], (4, 5, 6)⟩⟩

def sampleChanAnn : ChannelAnnouncement := ⟨0, ⟨77, 5, 6⟩⟩

def sampleChanUpd : ChannelUpdate := ⟨0, ⟨77, 1000⟩⟩

def parseSample : String → Option Nat :=
  fun t => if t = "valid words" then some 42 else none

/-! Theorems settling the claims. -/

/-- Claim C1: when `handle_node_announcement` processes an announcement whose
identity already has a metadata record, the stored record becomes the
announcement-derived one (the new alias and color, node_id the announced
identity) and no other record changes; when no record exists for the identity,
the store is unchanged (no record is created). Stated under a functioning
metadata store (read and write succeed). -/
theorem C1_node_announcement_metadata_policy (env : GossipEnv) (store : StoreMap)
    (msg : NodeAnnouncement) (hr : env.readOk = true) (hw : env.writeOk = true) :
    ((store msg.contents.node_id).isSome = true →
      (handle_node_announcement env store msg).2.1 msg.contents.node_id =
        some (lnPeerInfoOfAnnouncement msg) ∧
      ∀ k, k ≠ msg.contents.node_id →
        (handle_node_announcement env store msg).2.1 k = store k) ∧
    (store msg.contents.node_id = none →
      (handle_node_announcement env store msg).2.1 = store) := by
  constructor
  · intro hsome
    unfold handle_node_announcement
    simp only [read_peer_info, hr, if_true, Except.toOption, Option.join,
      save_ln_peer_info, hw]
    obtain ⟨v, hv⟩ := Option.isSome_iff_exists.mp hsome
    simp [hv]
    intro k hk hk2
    exact absurd hk2 hk
  · intro hnone
    unfold handle_node_announcement
    simp [read_peer_info, hr, hnone, Except.toOption, Option.join]

/-- Claim C1 witness: an announcement for identity 5 (which has a record)
overwrites that record and leaves key 7 alone; an announcement for identity 6
against the empty store leaves the store unchanged. -/
theorem C1_witness :
    (handle_node_announcement sampleEnv sampleStore sampleAnn).2.1 5 =
      some (lnPeerInfoOfAnnouncement sampleAnn) ∧
    (handle_node_announcement sampleEnv sampleStore sampleAnn).2.1 7 =
      sampleStore 7 ∧
    (handle_node_announcement sampleEnv sampleStoreEmpty sampleAnnUnknown).2.1 =
      sampleStoreEmpty := by
  have h := C1_node_announcement_metadata_policy sampleEnv sampleStore sampleAnn
    rfl rfl
  have h2 := C1_node_announcement_metadata_policy sampleEnv sampleStoreEmpty
    sampleAnnUnknown rfl rfl
  exact ⟨(h.1 (by decide)).1, (h.1 (by decide)).2 7 (by decide), h2.2 rfl⟩

/-- Claim C2 counterexample: when the Topology Cache's node-update operation
reports a validation failure, `handle_node_announcement` does not return
`Ok(false)` — the `?` operator propagates the cache's error to the caller, so
the claim that the failure is swallowed is false. -/
theorem C2_counterexample :
    (handle_node_announcement errEnv sampleStore sampleAnn).1 ≠
      Except.ok false := by
  simp [handle_node_announcement, errEnv]

/-- Claim C2 (amended): each of the three handlers calls the corresponding
Topology Cache update and returns `Ok(false)` exactly when that update
succeeds; when the update fails, the handler propagates the cache's error to
the caller (it does not swallow it); no handler ever returns `Ok(true)`. -/
theorem C2_relay_result_amended (env : GossipEnv) (store : StoreMap)
    (msgN : NodeAnnouncement) (msgC : ChannelAnnouncement)
    (msgU : ChannelUpdate) :
    ((handle_node_announcement env store msgN).1 =
        Except.map (fun _ => false) env.nodeUpdateResult ∧
      (handle_channel_announcement env store msgC).1 =
        Except.map (fun _ => false) env.chanAnnUpdateResult ∧
      (handle_channel_update env store msgU).1 =
        Except.map (fun _ => false) env.chanUpdateResult) ∧
    ((handle_node_announcement env store msgN).1 ≠ Except.ok true ∧
      (handle_channel_announcement env store msgC).1 ≠ Except.ok true ∧
      (handle_channel_update env store msgU).1 ≠ Except.ok true) := by
  obtain ⟨ro, wo, nr, cr, ur⟩ := env
  cases nr <;> cases cr <;> cases ur <;>
    simp [handle_node_announcement, handle_channel_announcement,
      handle_channel_update, Except.map]

/-- Claim C3: every invocation of each handler produces exactly one call into
the corresponding Topology Cache update operation, for every environment
(including failing reads/writes and failing cache updates) and every store. -/
theorem C3_exactly_one_cache_call (env : GossipEnv) (store : StoreMap)
    (msgN : NodeAnnouncement) (msgC : ChannelAnnouncement)
    (msgU : ChannelUpdate) :
    (handle_node_announcement env store msgN).2.2 =
      [CacheCall.updateNode msgN] ∧
    (handle_channel_announcement env store msgC).2.2 =
      [CacheCall.updateChanAnn msgC none] ∧
    (handle_channel_update env store msgU).2.2 =
      [CacheCall.updateChan msgU] :=
  ⟨rfl, rfl, rfl⟩

/-- Claim C4: for an announcement whose identity has an existing metadata
record, a failing store write changes nothing about the handler's return
value: it equals the return value under a succeeding write, the cache is still
called, and (when the cache update succeeds) the result is still `Ok(false)`. -/
theorem C4_store_write_failure_swallowed (env : GossipEnv) (store : StoreMap)
    (msg : NodeAnnouncement) (hr : env.readOk = true)
    (hs : (store msg.contents.node_id).isSome = true) :
    (handle_node_announcement { env with writeOk := false } store msg).1 =
      (handle_node_announcement { env with writeOk := true } store msg).1 ∧
    (handle_node_announcement { env with writeOk := false } store msg).2.2 =
      [CacheCall.updateNode msg] ∧
    (env.nodeUpdateResult = Except.ok () →
      (handle_node_announcement { env with writeOk := false } store msg).1 =
        Except.ok false) := by
  refine ⟨rfl, rfl, ?_⟩
  intro h
  simp [handle_node_announcement, h]

/-- Claim C4 witness: at the sample inputs, the handler's result with a failing
write equals its result with a succeeding write, the cache call is made, and
the result is `Ok(false)`. -/
theorem C4_witness :
    (handle_node_announcement { sampleEnv with writeOk := false } sampleStore
        sampleAnn).1 =
      (handle_node_announcement { sampleEnv with writeOk := true } sampleStore
        sampleAnn).1 ∧
    (handle_node_announcement { sampleEnv with writeOk := false } sampleStore
        sampleAnn).2.2 = [CacheCall.updateNode sampleAnn] ∧
    (handle_node_announcement { sampleEnv with writeOk := false } sampleStore
        sampleAnn).1 = Except.ok false := by
  have h := C4_store_write_failure_swallowed sampleEnv sampleStore sampleAnn
    rfl (by decide)
  exact ⟨h.1, h.2.1, h.2.2 rfl⟩

/-- Claim C5: all bulk-sync operations yield an empty or accepted-but-empty
result: the two pagination queries return `None` for every starting point, and
the four range/short-channel-id handlers return `Ok(())` for every peer and
message, in every state. -/
theorem C5_bulk_sync_empty (env : GossipEnv) (store : StoreMap) (sp : Nat)
    (spn : Option NodeId) (peer : PublicKey) (q1 : QueryChannelRange)
    (q2 : QueryShortChannelIds) (r1 : ReplyChannelRange)
    (r2 : ReplyShortChannelIdsEnd) :
    get_next_channel_announcement env store sp = none ∧
    get_next_node_announcement env store spn = none ∧
    handle_query_channel_range env store peer q1 = Except.ok () ∧
    handle_query_short_channel_ids env store peer q2 = Except.ok () ∧
    handle_reply_channel_range env store peer r1 = Except.ok () ∧
    handle_reply_short_channel_ids_end env store peer r2 = Except.ok () :=
  ⟨rfl, rfl, rfl, rfl, rfl, rfl⟩

/-- Claim C6: the gossip handler's outbound-message queue query returns the
empty list on every call, in every state. -/
theorem C6_no_pending_msg_events (env : GossipEnv) (store : StoreMap) :
    get_and_clear_pending_msg_events env store = [] :=
  rfl

/-- Claim C7: capability negotiation always succeeds with the minimal feature
set: `peer_connected` returns `Ok(())` for every peer, init message and
direction, and both feature providers return the empty feature set. -/
theorem C7_capability_negotiation_minimal (env : GossipEnv) (store : StoreMap)
    (peer : PublicKey) (initMsg : InitMsg) (inbound : Bool) :
    peer_connected env store peer initMsg inbound = Except.ok () ∧
    provided_node_features env store = NodeFeatures.empty ∧
    (provided_node_features env store).flags = [] ∧
    provided_init_features env store peer = InitFeatures.empty ∧
    (provided_init_features env store peer).flags = [] :=
  ⟨rfl, rfl, rfl, rfl, rfl⟩

/-- Claim C8: `ErroringUtxoLookup::get_utxo` returns a synchronous `UnknownTx`
error for every genesis hash and short channel id, and
`handle_channel_announcement` forwards every announcement into the Topology
Cache's channel-update operation with `None` as the UTXO-verification
capability (the designed no-verify path). -/
theorem C8_always_reject_utxo (env : GossipEnv) (store : StoreMap)
    (h : BlockHash) (scid : Nat) (msg : ChannelAnnouncement) :
    ErroringUtxoLookup.get_utxo h scid =
      UtxoResult.Sync (Except.error UtxoLookupError.UnknownTx) ∧
    (handle_channel_announcement env store msg).2.2 =
      [CacheCall.updateChanAnn msg none] :=
  ⟨rfl, rfl⟩

/-- Claim C9: when the metadata-store read fails, `handle_node_announcement`
behaves exactly as if no record existed: the store is unchanged (no write is
attempted), the result depends only on the cache's verdict, and the
announcement is still forwarded to the cache's node-update operation. -/
theorem C9_read_error_like_absence (env : GossipEnv) (store : StoreMap)
    (msg : NodeAnnouncement) (hr : env.readOk = false) :
    handle_node_announcement env store msg =
      ((match env.nodeUpdateResult with
        | Except.error e => Except.error e
        | Except.ok _ => Except.ok false),
       store, [CacheCall.updateNode msg]) := by
  unfold handle_node_announcement
  simp [read_peer_info, hr, Except.toOption, Option.join]

/-- Claim C9 witness: with a failing read over a store that does hold a record
for the announced identity, the handler returns `Ok(false)`, leaves the store
unchanged and makes the one cache call. -/
theorem C9_witness :
    handle_node_announcement envReadFail sampleStore sampleAnn =
      (Except.ok false, sampleStore, [CacheCall.updateNode sampleAnn]) :=
  C9_read_error_like_absence envReadFail sampleStore sampleAnn rfl

/-- Claim C10: `NodeManager::new(Some(s))` panics (modelled as `none`) exactly
when `s` does not parse as a BIP-39 mnemonic; when `s` parses to mnemonic `m`,
it returns a manager whose `show_seed()` is the canonical string form of `m`. -/
theorem C10_new_mnemonic (M : Type) (parse : String → Option M)
    (toStr : M → String) (stored : Option M) (gen : M) (s : String) :
    (parse s = none → NodeManager.new M parse stored gen (some s) = none) ∧
    (∀ m, parse s = some m →
      ∃ nm, NodeManager.new M parse stored gen (some s) = some nm ∧
        NodeManager.show_seed M toStr nm = toStr m) := by
  constructor
  · intro h
    simp [NodeManager.new, h]
  · intro m h
    refine ⟨⟨m, (), 0⟩, ?_, rfl⟩
    simp [NodeManager.new, h, insert_mnemonic]

/-- Claim C10 witness: an unparseable string panics (is `none`); the string
parsing to the sample mnemonic `42` yields a manager showing seed `"42"`. -/
theorem C10_witness :
    NodeManager.new Nat parseSample none 0 (some "garbage") = none ∧
    (NodeManager.new Nat parseSample none 0 (some "valid words")).map
      (NodeManager.show_seed Nat (fun n => toString n)) = some "42" := by
  have h1 := (C10_new_mnemonic Nat parseSample (fun n => toString n) none 0
    "garbage").1 (by decide)
  obtain ⟨nm, h2, h3⟩ := (C10_new_mnemonic Nat parseSample
    (fun n => toString n) none 0 "valid words").2 42 (by decide)
  refine ⟨h1, ?_⟩
  rw [h2]
  simpa using h3

end Mutiny
